import Mathlib

/-!
# ddos-guardian: verification of the request-admission engines

Shallow embedding of the stateful engines of the `ddos-guardian` reverse
proxy: the per-IP sliding window tracker (`src/config/index.js`, class
`IpTracker`), the rate-limit coordinator (`RateLimiter`), the upstream
forwarder (`src/core/proxy.js`), the bot scorer (`src/core/bot-detector.js`)
and the reputation engine (`src/core/ip-reputation.js`).  Times are
milliseconds since the epoch, modelled as `Nat`; JavaScript arithmetic that
can go negative is carried out in `Int`.
-/

namespace Guardian

/-! ### Character-level string primitives

The JavaScript string operations the engines use, implemented over the
character list so that every definition evaluates by reduction. -/

/-- JavaScript `s.split(c)` for a one-character separator. -/
def splitAux (c : Char) : List Char → List Char → List String
  | [], acc => [String.mk acc.reverse]
  | x :: xs, acc =>
    if x = c then String.mk acc.reverse :: splitAux c xs []
    else splitAux c xs (x :: acc)

/-- JavaScript `s.split(c)`. -/
def jsSplit (s : String) (c : Char) : List String :=
  splitAux c s.data []

/-- The whitespace characters `trim` removes. -/
def isWS (c : Char) : Bool :=
  c = ' ' || c = '\t' || c = '\n' || c = '\r'

/-- JavaScript `s.trim()`. -/
def jsTrim (s : String) : String :=
  String.mk (((s.data.dropWhile isWS).reverse.dropWhile isWS).reverse)

/-- JavaScript `s.toLowerCase()` (ASCII, which covers every string the
engines compare). -/
def jsToLower (s : String) : String :=
  String.mk (s.data.map Char.toLower)

/-- JavaScript `s.startsWith(p)`. -/
def jsStartsWith (s p : String) : Bool :=
  p.data.isPrefixOf s.data

/-- Contiguous-substring search. -/
def hasInfix (sub : List Char) : List Char → Bool
  | [] => sub.isEmpty
  | c :: tl => sub.isPrefixOf (c :: tl) || hasInfix sub tl

/-- JavaScript `s.length` (UTF-16 units; the compared strings are ASCII). -/
def sLen (s : String) : Nat :=
  s.data.length

/-- JavaScript `s.slice(n)` / Lean `s.drop n` on ASCII strings. -/
def sDrop (s : String) (n : Nat) : String :=
  String.mk (s.data.drop n)

/-- Decimal port parse (the `url.port` field of a well-formed URL). -/
def parsePort (s : String) : Option Nat :=
  if s.data ≠ [] ∧ s.data.all Char.isDigit then
    some (s.data.foldl (fun n c => n * 10 + (c.toNat - 48)) 0)
  else none

/-- JavaScript string truthiness: `a || b` where the empty string is falsy. -/
def jsOrStr (a b : String) : String :=
  if a = "" then b else a

/-- JavaScript `a?.b || c` on an optional string. -/
def jsOrOpt (a : Option String) (b : String) : String :=
  match a with
  | none => b
  | some s => jsOrStr s b

/-! ## IpTracker (src/config/index.js, class IpRecord / IpTracker) -/

/-- Per-IP mutable record (`class IpRecord`). -/
structure IpRecord where
  requests : List Nat
  blocked : Bool
  blockedUntil : Nat
  totalRequests : Nat
  totalBlocks : Nat
  deriving Repr, DecidableEq

/-- The record created by `new IpRecord()`. -/
def IpRecord.fresh : IpRecord :=
  { requests := [], blocked := false, blockedUntil := 0,
    totalRequests := 0, totalBlocks := 0 }

/-- Tracker configuration (`windowMs`, `maxRequests`, `blockDurationMs`). -/
structure TrackerConfig where
  windowMs : Nat
  maxRequests : Nat
  blockDurationMs : Nat
  deriving Repr, DecidableEq

/-- The value returned by `IpTracker.track`. -/
structure TrackResult where
  allowed : Bool
  blocked : Bool
  remaining : Nat
  resetMs : Nat
  totalRequests : Nat
  reason : Option String
  deriving Repr, DecidableEq

/-- `record.requests.filter(ts => ts > windowStart)` with
`windowStart = now - windowMs` computed in JavaScript (possibly negative)
arithmetic. -/
def keptRequests (cfg : TrackerConfig) (now : Nat) (l : List Nat) : List Nat :=
  l.filter (fun ts => (now : Int) - (cfg.windowMs : Int) < (ts : Int))

/-- `IpTracker.track`, acting on a single record: returns the decision and
the updated record. -/
def track (cfg : TrackerConfig) (rec : IpRecord) (now : Nat) :
    TrackResult × IpRecord :=
  if rec.blocked ∧ now < rec.blockedUntil then
    ({ allowed := false, blocked := true, remaining := 0,
       resetMs := rec.blockedUntil - now, totalRequests := rec.totalRequests,
       reason := some "blocked" }, rec)
  else
    let rec1 : IpRecord :=
      if rec.blocked then
        { rec with blocked := false, blockedUntil := 0, requests := [] }
      else rec
    let reqs : List Nat := keptRequests cfg now rec1.requests ++ [now]
    let tr : Nat := rec1.totalRequests + 1
    if reqs.length > cfg.maxRequests then
      ({ allowed := false, blocked := true, remaining := 0,
         resetMs := cfg.blockDurationMs, totalRequests := tr,
         reason := some "rate_limit_exceeded" },
       { rec1 with
          requests := reqs, blocked := true,
          blockedUntil := now + cfg.blockDurationMs,
          totalRequests := tr, totalBlocks := rec1.totalBlocks + 1 })
    else
      let oldest : Nat := reqs.headD 0
      -- `oldestRequest ? (oldestRequest + windowMs) - now : windowMs`,
      -- then `Math.max(0, resetMs)`; the timestamp 0 is falsy in JavaScript.
      let resetMs : Nat :=
        if oldest = 0 then cfg.windowMs
        else ((oldest : Int) + (cfg.windowMs : Int) - (now : Int)).toNat
      ({ allowed := true, blocked := false,
         remaining := cfg.maxRequests - reqs.length, resetMs := resetMs,
         totalRequests := tr, reason := none },
       { rec1 with requests := reqs, totalRequests := tr })

/-- `IpTracker.block` on a single record: sets the block fields
unconditionally and increments `totalBlocks`. -/
def blockRec (rec : IpRecord) (now durationMs : Nat) : IpRecord :=
  { rec with
      blocked := true, blockedUntil := now + durationMs,
      totalBlocks := rec.totalBlocks + 1 }

/-- `IpTracker.unblock` on a single record: clears the block fields only. -/
def unblockRec (rec : IpRecord) : IpRecord :=
  { rec with blocked := false, blockedUntil := 0 }

/-- A sequence of `track` calls on one record, returning all decisions and
the final record. -/
def trackSeq (cfg : TrackerConfig) (rec : IpRecord) :
    List Nat → List TrackResult × IpRecord
  | [] => ([], rec)
  | t :: ts =>
    let step := track cfg rec t
    let rest := trackSeq cfg step.2 ts
    (step.1 :: rest.1, rest.2)

/-! ### Tracker state: the `records` map (`Map<ip, IpRecord>`) -/

/-- The tracker's record map, in `Map` insertion order. -/
def TrackerState : Type := List (String × IpRecord)

/-- `records.get(ip)`. -/
def lookupRec : TrackerState → String → Option IpRecord
  | [], _ => none
  | (k, v) :: rest, ip => if k = ip then some v else lookupRec rest ip

/-- `records.set(ip, rec)`: replaces in place, or appends a new entry. -/
def setRec : TrackerState → String → IpRecord → TrackerState
  | [], ip, rec => [(ip, rec)]
  | (k, v) :: rest, ip, rec =>
    if k = ip then (ip, rec) :: rest else (k, v) :: setRec rest ip rec

/-- `IpTracker.track(ip)` on the whole tracker state (`getRecord` creates a
fresh record for an unseen key). -/
def trackerTrack (cfg : TrackerConfig) (st : TrackerState) (ip : String)
    (now : Nat) : TrackResult × TrackerState :=
  let rec0 := (lookupRec st ip).getD IpRecord.fresh
  let step := track cfg rec0 now
  (step.1, setRec st ip step.2)

/-- `IpTracker.block(ip, durationMs)` on the whole tracker state. -/
def trackerBlock (st : TrackerState) (ip : String)
    (now durationMs : Nat) : TrackerState :=
  let rec0 := (lookupRec st ip).getD IpRecord.fresh
  setRec st ip (blockRec rec0 now durationMs)

/-- `IpTracker.unblock(ip)`: uses `records.get`, so it mutates only an
existing record and never creates one. -/
def trackerUnblock (st : TrackerState) (ip : String) : TrackerState :=
  match lookupRec st ip with
  | none => st
  | some rec0 => setRec st ip (unblockRec rec0)

/-! ## Requests and headers

Node lowercases inbound header names; a header map is an association list
in insertion order.  `hget` is property read (first match), `hset` is
JavaScript object assignment (update in place, else append). -/

/-- First value bound to `key`, if any. -/
def hget : List (String × String) → String → Option String
  | [], _ => none
  | (k, v) :: rest, key => if k = key then some v else hget rest key

/-- JavaScript `obj[key] = v`. -/
def hset : List (String × String) → String → String → List (String × String)
  | [], key, v => [(key, v)]
  | (k, w) :: rest, key, v =>
    if k = key then (key, v) :: rest else (k, w) :: hset rest key v

/-- An inbound request as the engines see it. -/
structure Req where
  headers : List (String × String)
  url : String
  method : String
  socketRemoteAddress : Option String
  connectionRemoteAddress : Option String
  reqIp : Option String
  socketEncrypted : Bool
  reqId : Option String
  deriving Repr, DecidableEq

/-- `req.headers?.[k]` read as a string, `""` when absent (both absent and
empty are falsy in the JavaScript conditions below). -/
def Req.headerStr (req : Req) (k : String) : String :=
  (hget req.headers k).getD ""

/-! ## RateLimiter (src/rate-limiter.js) -/

/-- `extractIp(req, trustProxy)`: first entry of `x-forwarded-for`, else
`x-real-ip`, else the socket peer, under JavaScript truthiness. -/
def extractIp (req : Req) (trustProxy : Bool) : String :=
  let fallback :=
    jsOrOpt req.socketRemoteAddress
      (jsOrOpt req.connectionRemoteAddress (jsOrOpt req.reqIp "unknown"))
  if trustProxy then
    let forwarded := req.headerStr "x-forwarded-for"
    if forwarded ≠ "" then jsTrim ((jsSplit forwarded ',').headD "")
    else
      let realIp := req.headerStr "x-real-ip"
      if realIp ≠ "" then jsTrim realIp else fallback
  else fallback

/-- The rate-limit coordinator's state (`class RateLimiter`). -/
structure RateLimiter where
  enabled : Bool
  trustProxy : Bool
  whitelist : Finset String
  blacklist : Finset String
  cfg : TrackerConfig
  tracker : TrackerState
  skipPaths : List String

/-- The value returned by `RateLimiter.check`; `none` in `remaining` /
`resetMs` stands for JavaScript `Infinity`. -/
structure CheckResult where
  allowed : Bool
  blocked : Bool
  remaining : Option Nat
  resetMs : Option Nat
  ip : Option String
  reason : Option String
  totalRequests : Option Nat
  deriving Repr, DecidableEq

/-- `RateLimiter.shouldSkip`: the query-less path starts with a skip
prefix. -/
def shouldSkip (rl : RateLimiter) (req : Req) : Bool :=
  let path := (jsSplit req.url '?').headD ""
  rl.skipPaths.any (fun p => jsStartsWith path p)

/-- `RateLimiter.getKey` (no custom extractor is configured in the repo). -/
def getKey (rl : RateLimiter) (req : Req) : String :=
  extractIp req rl.trustProxy

/-- `RateLimiter.check(req)`: disabled → skip-path → whitelist →
blacklist → tracker. -/
def check (rl : RateLimiter) (req : Req) (now : Nat) :
    CheckResult × RateLimiter :=
  if rl.enabled = false then
    ({ allowed := true, blocked := false, remaining := none,
       resetMs := some 0, ip := none, reason := some "disabled",
       totalRequests := none }, rl)
  else if shouldSkip rl req then
    ({ allowed := true, blocked := false, remaining := none,
       resetMs := some 0, ip := none, reason := some "skipped",
       totalRequests := none }, rl)
  else
    let ip := getKey rl req
    if ip ∈ rl.whitelist then
      ({ allowed := true, blocked := false, remaining := none,
         resetMs := some 0, ip := some ip, reason := some "whitelisted",
         totalRequests := none }, rl)
    else if ip ∈ rl.blacklist then
      ({ allowed := false, blocked := true, remaining := some 0,
         resetMs := none, ip := some ip, reason := some "blacklisted",
         totalRequests := none }, rl)
    else
      let step := trackerTrack rl.cfg rl.tracker ip now
      ({ allowed := step.1.allowed, blocked := step.1.blocked,
         remaining := some step.1.remaining, resetMs := some step.1.resetMs,
         ip := some ip, reason := step.1.reason,
         totalRequests := some step.1.totalRequests },
       { rl with tracker := step.2 })

/-- `RateLimiter.addToWhitelist`: add, and remove from the blacklist. -/
def addToWhitelist (rl : RateLimiter) (ip : String) : RateLimiter :=
  { rl with whitelist := insert ip rl.whitelist,
            blacklist := rl.blacklist.erase ip }

/-- `RateLimiter.removeFromWhitelist`. -/
def removeFromWhitelist (rl : RateLimiter) (ip : String) : RateLimiter :=
  { rl with whitelist := rl.whitelist.erase ip }

/-- `RateLimiter.addToBlacklist`: add, and remove from the whitelist. -/
def addToBlacklist (rl : RateLimiter) (ip : String) : RateLimiter :=
  { rl with blacklist := insert ip rl.blacklist,
            whitelist := rl.whitelist.erase ip }

/-- `RateLimiter.removeFromBlacklist`. -/
def removeFromBlacklist (rl : RateLimiter) (ip : String) : RateLimiter :=
  { rl with blacklist := rl.blacklist.erase ip }

/-- One admin list operation. -/
inductive AdminOp where
  | addW (ip : String)
  | remW (ip : String)
  | addB (ip : String)
  | remB (ip : String)
  deriving Repr, DecidableEq

/-- Apply one admin list operation. -/
def applyAdminOp (rl : RateLimiter) : AdminOp → RateLimiter
  | .addW ip => addToWhitelist rl ip
  | .remW ip => removeFromWhitelist rl ip
  | .addB ip => addToBlacklist rl ip
  | .remB ip => removeFromBlacklist rl ip

/-- Apply a sequence of admin list operations. -/
def applyAdminOps (rl : RateLimiter) (ops : List AdminOp) : RateLimiter :=
  ops.foldl applyAdminOp rl

/-! ## Proxy (src/core/proxy.js) -/

/-- A parsed upstream target: protocol, hostname, port, path, original
form. -/
structure Target where
  protocol : String
  host : String
  port : Nat
  path : String
  original : String
  deriving Repr, DecidableEq

/-- `new URL(target)` restricted to well-formed absolute http(s) URLs
(`scheme://host[:port][/path]`), keeping the fields `parseTargets` reads:
`url.protocol`, `url.hostname`, `url.port || (https ? 443 : 80)`,
`url.pathname`. -/
def parseTarget (s : String) : Target :=
  let (protocol, defaultPort, rest) :=
    if jsStartsWith s "https://" then ("https:", 443, sDrop s 8)
    else ("http:", 80, sDrop s (if jsStartsWith s "http://" then 7 else 0))
  let hostPort := (jsSplit rest '/').headD ""
  let path := sDrop rest (sLen hostPort)
  let pathname := if path = "" then "/" else path
  match jsSplit hostPort ':' with
  | [h, p] =>
    { protocol := protocol, host := h,
      port := (parsePort p).getD defaultPort, path := pathname, original := s }
  | _ =>
    { protocol := protocol, host := hostPort, port := defaultPort,
      path := pathname, original := s }

/-- `Proxy.parseTargets` on a list of URL strings. -/
def parseTargets (l : List String) : List Target :=
  l.map parseTarget

/-- The forwarder's state: target pool, round-robin cursor, static extra
headers. -/
structure ProxyState where
  targets : List Target
  currentTarget : Nat
  addHeaders : List (String × String)
  deriving Repr, DecidableEq

/-- The hop-by-hop header names stripped on forward (`this.removeHeaders`). -/
def removeHeaders : List String :=
  ["host", "connection", "keep-alive", "proxy-authenticate",
   "proxy-authorization", "te", "trailers", "transfer-encoding", "upgrade"]

/-- `Proxy.getTarget`: round-robin selection; `none` when the pool is
empty (or the cursor is out of range, where JavaScript yields
`undefined`). -/
def getTarget (p : ProxyState) : Option Target × ProxyState :=
  if p.targets.length = 0 then (none, p)
  else
    (p.targets.get? p.currentTarget,
     { p with currentTarget := (p.currentTarget + 1) % p.targets.length })

/-- `Proxy.buildHeaders(req, target)`: copy non-hop-by-hop inbound headers,
set `Host`, the `X-Forwarded-*` headers, the request-ID and the static
extra headers. -/
def buildHeaders (p : ProxyState) (req : Req) (target : Target) :
    List (String × String) :=
  let copied := req.headers.foldl
    (fun acc kv =>
      if jsToLower kv.1 ∈ removeHeaders then acc else hset acc kv.1 kv.2)
    []
  let h1 := hset copied "Host"
    (if target.port = 80 ∨ target.port = 443 then target.host
     else target.host ++ ":" ++ toString target.port)
  let clientIp :=
    jsOrStr (req.headerStr "x-forwarded-for")
      (jsOrOpt req.socketRemoteAddress "unknown")
  let h2 := hset h1 "X-Forwarded-For" clientIp
  let h3 := hset h2 "X-Forwarded-Proto"
    (if req.socketEncrypted then "https" else "http")
  let h4 := hset h3 "X-Forwarded-Host" (req.headerStr "host")
  let h5 := match req.reqId with
    | some i => hset h4 "X-Request-ID" i
    | none => h4
  p.addHeaders.foldl (fun acc kv => hset acc kv.1 kv.2) h5

/-- Modelled from the spec: `proxy.updateTargets(list)` is called from
`startAutoRefresh` in `src/index.js`, but no `updateTargets` method exists
anywhere in the repository's `Proxy` class; the spec says "Pool update:
`update_targets(list)` atomically replaces the internal slice and resets
cursor to 0", with the list parsed as at construction. -/
def updateTargets (p : ProxyState) (l : List String) : ProxyState :=
  { p with targets := parseTargets l, currentTarget := 0 }

/-! ## BotDetector (src/core/bot-detector.js) -/

/-- JavaScript `s.includes(sub)`. -/
def jsIncludes (s sub : String) : Bool :=
  hasInfix sub.data s.data

/-- `KNOWN_BOTS`. -/
def KNOWN_BOTS : List String :=
  ["googlebot", "bingbot", "slurp", "duckduckbot", "baiduspider",
   "yandexbot", "sogou", "facebot", "ia_archiver", "semrushbot",
   "ahrefsbot", "mj12bot", "dotbot", "petalbot", "bytespider"]

/-- `SUSPICIOUS_UA`. -/
def SUSPICIOUS_UA : List String :=
  ["python-requests", "python-urllib", "curl", "wget", "httpie",
   "postman", "insomnia", "axios", "node-fetch", "go-http-client",
   "java", "libwww", "lwp-trivial", "php", "ruby"]

/-- `BAD_PATTERNS`. -/
def BAD_PATTERNS : List String :=
  ["sqlmap", "nikto", "nmap", "masscan", "zgrab",
   "nessus", "openvas", "burp", "owasp", "acunetix",
   "dirbuster", "gobuster", "wfuzz", "hydra", "medusa"]

/-- Per-key temporal pattern record. -/
structure PatternRec where
  requests : List Nat
  lastRequest : Nat
  deriving Repr, DecidableEq

/-- The pattern map (`Map<ip, pattern>`). -/
def PatternState : Type := List (String × PatternRec)

/-- Pattern-map read. -/
def lookupPat : PatternState → String → Option PatternRec
  | [], _ => none
  | (k, v) :: rest, ip => if k = ip then some v else lookupPat rest ip

/-- Pattern-map write. -/
def setPat : PatternState → String → PatternRec → PatternState
  | [], ip, p => [(ip, p)]
  | (k, v) :: rest, ip, p =>
    if k = ip then (ip, p) :: rest else (k, v) :: setPat rest ip p

/-- The detector's state. -/
structure BotDetector where
  threshold : Nat
  enabled : Bool
  patterns : PatternState

/-- `BotDetector.analyzePatterns(ip)`: creates the record on first sight,
appends `now`, keeps the last 10 seconds, and scores inter-arrival gap and
window length. -/
def analyzePatterns (patterns : PatternState) (ip : String) (now : Nat) :
    Nat × PatternState :=
  let pat := (lookupPat patterns ip).getD { requests := [], lastRequest := now }
  let timeSinceLast : Int := (now : Int) - (pat.lastRequest : Int)
  let reqs := (pat.requests ++ [now]).filter
    (fun (ts : Nat) => (now : Int) - (ts : Int) < 10000)
  let gapScore : Nat := if 0 < timeSinceLast ∧ timeSinceLast < 100 then 15 else 0
  let lenScore : Nat :=
    if reqs.length > 20 then 20 else if reqs.length > 10 then 10 else 0
  (gapScore + lenScore, setPat patterns ip { requests := reqs, lastRequest := now })

/-- `BotDetector.extractIp`: first `x-forwarded-for` entry, else
`x-real-ip`, else the socket peers, else `"unknown"`, under JavaScript
truthiness. -/
def btExtractIp (req : Req) : String :=
  let forwardedFirst := match hget req.headers "x-forwarded-for" with
    | some f => jsTrim ((jsSplit f ',').headD "")
    | none => ""
  jsOrStr forwardedFirst
    (jsOrStr (req.headerStr "x-real-ip")
      (jsOrOpt req.socketRemoteAddress
        (jsOrOpt req.connectionRemoteAddress "unknown")))

/-- The value returned by `BotDetector.analyze`. -/
structure AnalyzeResult where
  isBot : Bool
  score : Nat
  threshold : Nat
  reasons : List String
  allowed : Bool
  ip : String
  deriving Repr, DecidableEq

/-- `BotDetector.analyze(req)`: additive signal scoring, capped at 100. -/
def analyze (d : BotDetector) (req : Req) (now : Nat) :
    AnalyzeResult × BotDetector :=
  if d.enabled = false then
    ({ isBot := false, score := 0, threshold := d.threshold, reasons := [],
       allowed := true, ip := "" }, d)
  else
    let ip := btExtractIp req
    let ua := req.headerStr "user-agent"
    let uaLower := jsToLower ua
    let s1 : Nat × List String :=
      if ua = "" ∨ sLen ua < 10 then (30, ["missing_or_short_ua"]) else (0, [])
    let s2 : Nat × List String := match KNOWN_BOTS.find? (jsIncludes uaLower) with
      | some bot => (20, ["known_bot:" ++ bot])
      | none => (0, [])
    let s3 : Nat × List String := match SUSPICIOUS_UA.find? (jsIncludes uaLower) with
      | some sus => (15, ["suspicious_ua:" ++ sus])
      | none => (0, [])
    let s4 : Nat × List String := match BAD_PATTERNS.find? (jsIncludes uaLower) with
      | some bad => (50, ["bad_pattern:" ++ bad])
      | none => (0, [])
    let s5 : Nat × List String :=
      if req.headerStr "accept" = "" then (10, ["missing_accept"]) else (0, [])
    let s6 : Nat × List String :=
      if req.headerStr "accept-language" = "" then (10, ["missing_accept_language"])
      else (0, [])
    let s7 : Nat × List String :=
      if req.headerStr "accept-encoding" = "" then (5, ["missing_accept_encoding"])
      else (0, [])
    let s8 : Nat × List String :=
      if req.headerStr "x-forwarded-for" ≠ "" ∧ req.headerStr "via" = "" then
        (5, ["proxy_without_via"])
      else (0, [])
    let pat := analyzePatterns d.patterns ip now
    let s9 : Nat × List String :=
      if pat.1 > 0 then (pat.1, ["rapid_requests:" ++ toString pat.1]) else (0, [])
    let s10 : Nat × List String :=
      if jsToLower (req.headerStr "connection") = "close" then
        (5, ["connection_close"])
      else (0, [])
    let total := s1.1 + s2.1 + s3.1 + s4.1 + s5.1 + s6.1 + s7.1 + s8.1 + s9.1 + s10.1
    let score := min 100 total
    let signals := s1.2 ++ s2.2 ++ s3.2 ++ s4.2 ++ s5.2 ++ s6.2 ++ s7.2 ++ s8.2
      ++ s9.2 ++ s10.2
    let isBot := decide (score ≥ d.threshold)
    ({ isBot := isBot, score := score, threshold := d.threshold,
       reasons := signals, allowed := !isBot, ip := ip },
     { d with patterns := pat.2 })

/-- `BotDetector.isKnownGoodBot`. -/
def isKnownGoodBot (req : Req) : Bool :=
  let ua := jsToLower (req.headerStr "user-agent")
  ["googlebot", "bingbot", "duckduckbot"].any (jsIncludes ua)

/-- The bot-detection middleware's response decision
(`src/middleware/bot-detection.js`): `some 403` when the request is
refused, `none` when it falls through to the next stage. -/
def botMiddlewareStatus (d : BotDetector) (req : Req) (now : Nat)
    (blockBots allowGoodBots : Bool) : Option Nat :=
  if d.enabled = false then none
  else
    let result := (analyze d req now).1
    if result.isBot && allowGoodBots && isKnownGoodBot req then none
    else if result.isBot && blockBots then some 403
    else none

/-! ## IPReputation (src/core/ip-reputation.js) -/

/-- `_isPrivateIp(ip)` (substring-prefix ranges, `!ip` is truthy-false for
the empty string). -/
def isPrivateIp (ip : String) : Bool :=
  if ip = "" then true
  else
    jsStartsWith ip "10." ||
    jsStartsWith ip "172.16." || jsStartsWith ip "172.17." || jsStartsWith ip "172.18." ||
    jsStartsWith ip "172.19." || jsStartsWith ip "172.20." || jsStartsWith ip "172.21." ||
    jsStartsWith ip "172.22." || jsStartsWith ip "172.23." || jsStartsWith ip "172.24." ||
    jsStartsWith ip "172.25." || jsStartsWith ip "172.26." || jsStartsWith ip "172.27." ||
    jsStartsWith ip "172.28." || jsStartsWith ip "172.29." || jsStartsWith ip "172.30." ||
    jsStartsWith ip "172.31." ||
    jsStartsWith ip "192.168." ||
    jsStartsWith ip "127." ||
    jsStartsWith ip "169.254." ||
    ip == "::1" ||
    jsStartsWith ip "fc" || jsStartsWith ip "fd" || jsStartsWith ip "fe80"

/-- The payload parsed from a successful AbuseIPDB response. -/
structure LookupData where
  score : Nat
  reports : Nat
  country : Option String
  isp : Option String
  categories : List Nat
  deriving Repr, DecidableEq

/-- A TTL-cache entry: the lookup payload plus `lastChecked`. -/
structure CacheEntry where
  data : LookupData
  lastChecked : Nat
  deriving Repr, DecidableEq

/-- The engine's counters (`this.stats`); the code has exactly these five
fields. -/
structure RepStats where
  totalChecks : Nat
  cacheHits : Nat
  apiCalls : Nat
  blockedByReputation : Nat
  reportsSent : Nat
  deriving Repr, DecidableEq

/-- The reputation engine's state. -/
structure RepState where
  apiKey : Option String
  blockThreshold : Nat
  warnThreshold : Nat
  cacheEnabled : Bool
  cacheTTL : Nat
  cacheMaxSize : Nat
  apiRateLimit : Nat
  apiCallsToday : Nat
  apiResetTime : Nat
  cache : List (String × CacheEntry)
  whitelist : Finset String
  stats : RepStats

/-- Cache read (`this.cache.get(ip)`). -/
def lookupCache : List (String × CacheEntry) → String → Option CacheEntry
  | [], _ => none
  | (k, v) :: rest, ip => if k = ip then some v else lookupCache rest ip

/-- Cache write (`this.cache.set(ip, entry)`). -/
def setCache : List (String × CacheEntry) → String → CacheEntry →
    List (String × CacheEntry)
  | [], ip, e => [(ip, e)]
  | (k, v) :: rest, ip, e =>
    if k = ip then (ip, e) :: rest else (k, v) :: setCache rest ip e

/-- Cache delete (`this.cache.delete(ip)`). -/
def eraseCache (c : List (String × CacheEntry)) (ip : String) :
    List (String × CacheEntry) :=
  c.filter (fun kv => kv.1 ≠ ip)

/-- `_getFromCache(ip)`: miss when disabled or absent; an expired entry is
deleted and reported as a miss. -/
def getFromCache (st : RepState) (ip : String) (now : Nat) :
    Option CacheEntry × List (String × CacheEntry) :=
  if st.cacheEnabled = false then (none, st.cache)
  else
    match lookupCache st.cache ip with
    | none => (none, st.cache)
    | some e =>
      if (now : Int) - (e.lastChecked : Int) > (st.cacheTTL : Int) then
        (none, eraseCache st.cache ip)
      else (some e, st.cache)

/-- Stable ascending insertion by `lastChecked`, modelling the JavaScript
stable `sort((a, b) => a[1].lastChecked - b[1].lastChecked)`. -/
def insertByChecked (e : String × CacheEntry) :
    List (String × CacheEntry) → List (String × CacheEntry)
  | [] => [e]
  | h :: t =>
    if e.2.lastChecked < h.2.lastChecked then e :: h :: t
    else h :: insertByChecked e t

/-- Sort the cache entries by `lastChecked`, oldest first. -/
def sortByChecked (c : List (String × CacheEntry)) :
    List (String × CacheEntry) :=
  c.foldl (fun acc e => insertByChecked e acc) []

/-- `_addToCache(ip, data)`: evict the oldest quarter when full (the loop
bound `i < entries.length / 4` uses float division, deleting
`⌈len/4⌉` entries when `len` is not a multiple of 4), then insert. -/
def addToCache (st : RepState) (ip : String) (data : LookupData) (now : Nat) :
    List (String × CacheEntry) :=
  if st.cacheEnabled = false then st.cache
  else
    let base :=
      if st.cache.length ≥ st.cacheMaxSize then
        let sorted := sortByChecked st.cache
        let toDelete := (sorted.take ((st.cache.length + 3) / 4)).map Prod.fst
        toDelete.foldl eraseCache st.cache
      else st.cache
    setCache base ip { data := data, lastChecked := now }

/-- `_checkRateReset()`; `nextMidnight` stands for the wall-clock
`_getNextMidnight()` value. -/
def checkRateReset (st : RepState) (now nextMidnight : Nat) : RepState :=
  if now ≥ st.apiResetTime then
    { st with apiCallsToday := 0, apiResetTime := nextMidnight }
  else st

/-- A reputation verdict as returned by `check`. -/
structure RepVerdict where
  blocked : Bool
  score : Nat
  reason : String
  cached : Bool
  errMsg : Option String
  deriving Repr, DecidableEq

/-- Whether an API key is configured (`!this.apiKey` under JavaScript
truthiness). -/
def hasApiKey (st : RepState) : Bool :=
  match st.apiKey with
  | none => false
  | some k => k ≠ ""

/-- `IPReputation.check(ip)` with the awaited `_queryAbuseIPDB` outcome
passed in explicitly (`Except.error` for any transport or parse
rejection). -/
def repCheck (st : RepState) (ip : String) (now nextMidnight : Nat)
    (outcome : Except String LookupData) : RepVerdict × RepState :=
  let st1 := { st with stats := { st.stats with totalChecks := st.stats.totalChecks + 1 } }
  if isPrivateIp ip then
    ({ blocked := false, score := 0, reason := "private_ip", cached := false,
       errMsg := none }, st1)
  else if ip ∈ st.whitelist then
    ({ blocked := false, score := 0, reason := "whitelisted", cached := false,
       errMsg := none }, st1)
  else
    let hit := getFromCache st1 ip now
    let st2 := { st1 with cache := hit.2 }
    match hit.1 with
    | some c =>
      ({ blocked := decide (c.data.score ≥ st2.blockThreshold),
         score := c.data.score,
         reason := if c.data.score ≥ st2.blockThreshold then "reputation_block"
                   else "ok",
         cached := true, errMsg := none },
       { st2 with stats := { st2.stats with cacheHits := st2.stats.cacheHits + 1 } })
    | none =>
      if hasApiKey st2 = false then
        ({ blocked := false, score := 0, reason := "no_api_key",
           cached := false, errMsg := none }, st2)
      else
        let st3 := checkRateReset st2 now nextMidnight
        if st3.apiCallsToday ≥ st3.apiRateLimit then
          ({ blocked := false, score := 0, reason := "rate_limited",
             cached := false, errMsg := none }, st3)
        else
          match outcome with
          | .error e =>
            ({ blocked := false, score := 0, reason := "api_error",
               cached := false, errMsg := some e }, st3)
          | .ok data =>
            let st4 := { st3 with
              stats := { st3.stats with apiCalls := st3.stats.apiCalls + 1 },
              apiCallsToday := st3.apiCallsToday + 1 }
            let st5 := { st4 with cache := addToCache st4 ip data now }
            let blocked := decide (data.score ≥ st5.blockThreshold)
            let st6 :=
              if blocked then
                { st5 with stats := { st5.stats with
                    blockedByReputation := st5.stats.blockedByReputation + 1 } }
              else st5
            ({ blocked := blocked, score := data.score,
               reason := if blocked then "reputation_block" else "ok",
               cached := false, errMsg := none }, st6)

/-! ## Theorems -/

/-- A fresh detector at the repository's default threshold. -/
def freshDetector : BotDetector :=
  { threshold := 70, enabled := true, patterns := [] }

/-- A `GET /x` request whose only header is `user-agent: sqlmap/1.0`. -/
def sqlmapReq : Req :=
  { headers := [("user-agent", "sqlmap/1.0")], url := "/x", method := "GET",
    socketRemoteAddress := some "8.8.8.8", connectionRemoteAddress := none,
    reqIp := none, socketEncrypted := false, reqId := none }

/-- C9: the first scored request with user-agent exactly `sqlmap/1.0` and
no other optional headers scores 50 (bad_pattern) + 10 (missing accept) +
10 (missing accept-language) + 5 (missing accept-encoding) = 75, its
reasons include `bad_pattern:sqlmap`, and at threshold 70 it is classified
as a bot and refused with status 403 by the bot-detection middleware. -/
theorem sqlmap_first_request_scores_75 (now : Nat) :
    (analyze freshDetector sqlmapReq now).1.score = 75 ∧
    "bad_pattern:sqlmap" ∈ (analyze freshDetector sqlmapReq now).1.reasons ∧
    (analyze freshDetector sqlmapReq now).1.reasons =
      ["bad_pattern:sqlmap", "missing_accept", "missing_accept_language",
       "missing_accept_encoding"] ∧
    (analyze freshDetector sqlmapReq now).1.isBot = true ∧
    (analyze freshDetector sqlmapReq now).1.allowed = false ∧
    botMiddlewareStatus freshDetector sqlmapReq now true true = some 403 := by
  have hpat : analyzePatterns ([] : PatternState) "8.8.8.8" now
      = (0, [("8.8.8.8", { requests := [now], lastRequest := now })]) := by
    simp +decide [analyzePatterns, lookupPat, setPat, List.filter]
  have hana : analyze freshDetector sqlmapReq now =
      ({ isBot := true, score := 75, threshold := 70,
         reasons := ["bad_pattern:sqlmap", "missing_accept",
           "missing_accept_language", "missing_accept_encoding"],
         allowed := false, ip := "8.8.8.8" },
       { threshold := 70, enabled := true,
         patterns := [("8.8.8.8", { requests := [now], lastRequest := now })] }) := by
    have hkb : List.find? (jsIncludes (jsToLower "sqlmap/1.0")) KNOWN_BOTS = none := by
      decide
    have hsus : List.find? (jsIncludes (jsToLower "sqlmap/1.0")) SUSPICIOUS_UA = none := by
      decide
    have hbad : List.find? (jsIncludes (jsToLower "sqlmap/1.0")) BAD_PATTERNS
        = some "sqlmap" := by decide
    have hcl : jsToLower "" ≠ "close" := by decide
    simp +decide [analyze, freshDetector, sqlmapReq, Req.headerStr, hget,
      btExtractIp, jsOrStr, jsOrOpt, hpat, hkb, hsus, hbad, hcl]
  have hgood : isKnownGoodBot sqlmapReq = false := by decide
  have henb : freshDetector.enabled = true := rfl
  refine ⟨?_, ?_, ?_, ?_, ?_, ?_⟩ <;>
    simp only [botMiddlewareStatus, hana, henb] <;> simp [hgood]

/-! ### Header-map lemmas -/

theorem hget_hset_self (h : List (String × String)) (k v : String) :
    hget (hset h k v) k = some v := by
  induction h with
  | nil => simp [hset, hget]
  | cons kv rest ih =>
    by_cases hk : kv.1 = k
    · simp [hset, hk, hget]
    · simp [hset, hk, hget, ih]

theorem hget_hset_other (h : List (String × String)) (k v k' : String)
    (hne : k ≠ k') : hget (hset h k v) k' = hget h k' := by
  induction h with
  | nil => simp [hset, hget, hne]
  | cons kv rest ih =>
    by_cases hk : kv.1 = k
    · simp [hset, hk, hget, hne]
    · simp only [hset, hk, if_false, hget, ih]

/-! ### C2: the forwarding headers -/

/-- A request carrying a spoofable two-entry `x-forwarded-for` chain. -/
def xffReq : Req :=
  { headers := [("x-forwarded-for", "9.9.9.9, 8.8.8.8"), ("host", "example.com")],
    url := "/", method := "GET", socketRemoteAddress := some "5.5.5.5",
    connectionRemoteAddress := none, reqIp := none, socketEncrypted := false,
    reqId := none }

/-- A forwarder with one upstream target and no static extra headers, as
constructed in the repo. -/
def proxy0 : ProxyState :=
  { targets := parseTargets ["http://nginx:8080"], currentTarget := 0,
    addHeaders := [] }

/-- The target `proxy0` forwards to. -/
def target0 : Target := parseTarget "http://nginx:8080"

/-- C2 counterexample: for an inbound request with
`x-forwarded-for: 9.9.9.9, 8.8.8.8` over a socket from `5.5.5.5`, the
chosen ClientKey is `9.9.9.9`, yet `buildHeaders` emits the literal
inbound chain `9.9.9.9, 8.8.8.8` as `X-Forwarded-For` — not the
ClientKey, contradicting the claim. -/
theorem buildHeaders_xff_not_clientKey :
    extractIp xffReq true = "9.9.9.9" ∧
    hget (buildHeaders proxy0 xffReq target0) "X-Forwarded-For"
      = some "9.9.9.9, 8.8.8.8" ∧
    hget (buildHeaders proxy0 xffReq target0) "X-Forwarded-For"
      ≠ some (extractIp xffReq true) := by
  decide

/-- C2 amended: with no static extra headers configured, the upstream
request's `X-Forwarded-For` is the literal inbound `x-forwarded-for`
value when present and non-empty, else the socket peer address, else
`"unknown"` (a pass-through, not the ClientKey); `X-Forwarded-Proto`
comes from the inbound scheme and `X-Forwarded-Host` from the inbound
`host` header. -/
theorem buildHeaders_forwarding_headers (p : ProxyState) (req : Req)
    (t : Target) (hAdd : p.addHeaders = []) :
    hget (buildHeaders p req t) "X-Forwarded-For"
      = some (jsOrStr (req.headerStr "x-forwarded-for")
          (jsOrOpt req.socketRemoteAddress "unknown")) ∧
    hget (buildHeaders p req t) "X-Forwarded-Proto"
      = some (if req.socketEncrypted then "https" else "http") ∧
    hget (buildHeaders p req t) "X-Forwarded-Host"
      = some (req.headerStr "host") := by
  unfold buildHeaders
  rw [hAdd]
  simp only [List.foldl_nil]
  refine ⟨?_, ?_, ?_⟩
  · cases hid : req.reqId with
    | none =>
      simp only [hid]
      rw [hget_hset_other _ _ _ _ (by decide),
        hget_hset_other _ _ _ _ (by decide), hget_hset_self]
    | some i =>
      simp only [hid]
      rw [hget_hset_other _ _ _ _ (by decide),
        hget_hset_other _ _ _ _ (by decide),
        hget_hset_other _ _ _ _ (by decide), hget_hset_self]
  · cases hid : req.reqId with
    | none =>
      simp only [hid]
      rw [hget_hset_other _ _ _ _ (by decide), hget_hset_self]
    | some i =>
      simp only [hid]
      rw [hget_hset_other _ _ _ _ (by decide),
        hget_hset_other _ _ _ _ (by decide), hget_hset_self]
  · cases hid : req.reqId with
    | none =>
      simp only [hid]
      rw [hget_hset_self]
    | some i =>
      simp only [hid]
      rw [hget_hset_other _ _ _ _ (by decide), hget_hset_self]

/-- C2 amended, witness at the counterexample request. -/
theorem buildHeaders_forwarding_headers_witness :
    hget (buildHeaders proxy0 xffReq target0) "X-Forwarded-For"
      = some (jsOrStr (xffReq.headerStr "x-forwarded-for")
          (jsOrOpt xffReq.socketRemoteAddress "unknown")) :=
  (buildHeaders_forwarding_headers proxy0 xffReq target0 rfl).1

/-! ### C3: pool update (modelled from the spec) -/

/-- C3: `updateTargets L` replaces the pool with the parsed form of `L`
and resets the round-robin cursor to 0; the next selection reports an
empty pool exactly when `L` is empty, and otherwise picks an element of
the parsed `L`. -/
theorem updateTargets_swaps_pool_resets_cursor (p : ProxyState)
    (l : List String) :
    (updateTargets p l).targets = parseTargets l ∧
    (updateTargets p l).currentTarget = 0 ∧
    ((getTarget (updateTargets p l)).1 = none ↔ l = []) ∧
    (∀ t, (getTarget (updateTargets p l)).1 = some t → t ∈ parseTargets l) := by
  refine ⟨rfl, rfl, ?_, ?_⟩
  · cases l with
    | nil => simp [updateTargets, getTarget, parseTargets]
    | cons a as =>
      simp [updateTargets, getTarget, parseTargets]
  · intro t ht
    cases l with
    | nil => simp [updateTargets, getTarget, parseTargets] at ht
    | cons a as =>
      simp [updateTargets, getTarget, parseTargets] at ht
      simp [parseTargets, ← ht]

/-- C3 witness: after swapping in a single-element pool, the next
selection is its parsed element. -/
theorem updateTargets_swaps_pool_witness :
    (getTarget (updateTargets proxy0 ["http://web:3000"])).1
      = some (parseTarget "http://web:3000") ∧
    parseTarget "http://web:3000" ∈ parseTargets ["http://web:3000"] := by
  refine ⟨by decide, ?_⟩
  exact (updateTargets_swaps_pool_resets_cursor proxy0
    ["http://web:3000"]).2.2.2 (parseTarget "http://web:3000") (by decide)

/-! ### C5: whitelist/blacklist round-trip -/

/-- A limiter whose whitelist already contains `1.2.3.4`. -/
def rlWithWl : RateLimiter :=
  { enabled := true, trustProxy := true,
    whitelist := {"1.2.3.4"}, blacklist := ∅,
    cfg := { windowMs := 60000, maxRequests := 100, blockDurationMs := 300000 },
    tracker := [], skipPaths := ["/health", "/ready", "/metrics"] }

/-- C5 counterexample: when the IP is already whitelisted,
`addToWhitelist` is a no-op on the (set-valued) whitelist and
`removeFromWhitelist` then deletes it, so the pair does not restore the
prior state. -/
theorem whitelist_roundtrip_fails_when_present :
    (removeFromWhitelist (addToWhitelist rlWithWl "1.2.3.4") "1.2.3.4").whitelist
      ≠ rlWithWl.whitelist := by
  simp only [addToWhitelist, removeFromWhitelist, rlWithWl]
  simp [Finset.insert_eq_self.mpr (Finset.mem_singleton_self "1.2.3.4"),
    Finset.erase_singleton]
  exact (Finset.singleton_ne_empty "1.2.3.4").symm

/-- C5 amended: provided the IP is not already in the whitelist,
`addToWhitelist(ip); removeFromWhitelist(ip)` restores the whitelist, and
if the IP is also absent from the blacklist it restores the whole
coordinator state (the add deletes the IP from the blacklist, so an IP
present there is permanently removed); symmetrically for the blacklist
pair. -/
theorem list_roundtrip_restores_when_absent (rl : RateLimiter) (ip : String) :
    (ip ∉ rl.whitelist →
      (removeFromWhitelist (addToWhitelist rl ip) ip).whitelist = rl.whitelist) ∧
    (ip ∉ rl.whitelist → ip ∉ rl.blacklist →
      removeFromWhitelist (addToWhitelist rl ip) ip = rl) ∧
    (ip ∉ rl.blacklist →
      (removeFromBlacklist (addToBlacklist rl ip) ip).blacklist = rl.blacklist) ∧
    (ip ∉ rl.blacklist → ip ∉ rl.whitelist →
      removeFromBlacklist (addToBlacklist rl ip) ip = rl) := by
  refine ⟨?_, ?_, ?_, ?_⟩
  · intro hw
    simp [removeFromWhitelist, addToWhitelist, Finset.erase_insert hw]
  · intro hw hb
    cases rl
    simp_all [removeFromWhitelist, addToWhitelist, Finset.erase_insert,
      Finset.erase_eq_self]
  · intro hb
    simp [removeFromBlacklist, addToBlacklist, Finset.erase_insert hb]
  · intro hb hw
    cases rl
    simp_all [removeFromBlacklist, addToBlacklist, Finset.erase_insert,
      Finset.erase_eq_self]

/-- C5 amended, witness: round-trip on a fresh IP restores the state of
`rlWithWl`. -/
theorem list_roundtrip_restores_witness :
    removeFromWhitelist (addToWhitelist rlWithWl "7.7.7.7") "7.7.7.7" = rlWithWl :=
  (list_roundtrip_restores_when_absent rlWithWl "7.7.7.7").2.1
    (by decide) (by decide)

/-! ### C6: allow/deny disjointness -/

/-- One admin operation keeps the allow and deny lists disjoint, and a
write to one side erases the key from the other. -/
theorem applyAdminOp_disjoint (rl : RateLimiter) (op : AdminOp)
    (h : Disjoint rl.whitelist rl.blacklist) :
    Disjoint (applyAdminOp rl op).whitelist (applyAdminOp rl op).blacklist := by
  cases op with
  | addW ip =>
    simp only [applyAdminOp, addToWhitelist]
    rw [Finset.disjoint_left]
    intro x hx hx'
    rcases Finset.mem_insert.mp hx with hxe | hxw
    · exact (Finset.ne_of_mem_erase hx') hxe
    · exact (Finset.disjoint_left.mp h hxw) (Finset.mem_of_mem_erase hx')
  | remW ip =>
    simp only [applyAdminOp, removeFromWhitelist]
    exact Finset.disjoint_of_subset_left (Finset.erase_subset ip _) h
  | addB ip =>
    simp only [applyAdminOp, addToBlacklist]
    rw [Finset.disjoint_right]
    intro x hx hx'
    rcases Finset.mem_insert.mp hx with hxe | hxb
    · exact (Finset.ne_of_mem_erase hx') hxe
    · exact (Finset.disjoint_right.mp h hxb) (Finset.mem_of_mem_erase hx')
  | remB ip =>
    simp only [applyAdminOp, removeFromBlacklist]
    exact Finset.disjoint_of_subset_right (Finset.erase_subset ip _) h

/-- C6: starting from disjoint allow/deny lists (the repo constructs both
empty), after any sequence of admin list operations no key is in both
lists; moreover adding a key to one side removes it from the other. -/
theorem adminOps_keep_lists_disjoint (rl : RateLimiter) (ops : List AdminOp)
    (h : Disjoint rl.whitelist rl.blacklist) :
    Disjoint (applyAdminOps rl ops).whitelist (applyAdminOps rl ops).blacklist ∧
    (∀ s ip, (applyAdminOp s (.addW ip)).blacklist = s.blacklist.erase ip) ∧
    (∀ s ip, (applyAdminOp s (.addB ip)).whitelist = s.whitelist.erase ip) := by
  refine ⟨?_, fun s ip => rfl, fun s ip => rfl⟩
  induction ops generalizing rl with
  | nil => exact h
  | cons op rest ih =>
    exact ih (applyAdminOp rl op) (applyAdminOp_disjoint rl op h)

/-- C6, witness: a concrete op sequence from the empty lists. -/
theorem adminOps_keep_lists_disjoint_witness :
    Disjoint (applyAdminOps rlWithWl [.addB "1.2.3.4", .addW "5.5.5.5"]).whitelist
      (applyAdminOps rlWithWl [.addB "1.2.3.4", .addW "5.5.5.5"]).blacklist :=
  (adminOps_keep_lists_disjoint rlWithWl [.addB "1.2.3.4", .addW "5.5.5.5"]
    (by simp [rlWithWl])).1

/-! ### Branch lemmas for `track` -/

theorem track_blocked_active (cfg : TrackerConfig) (rec : IpRecord) (now : Nat)
    (hb : rec.blocked = true) (hu : now < rec.blockedUntil) :
    track cfg rec now =
      ({ allowed := false, blocked := true, remaining := 0,
         resetMs := rec.blockedUntil - now, totalRequests := rec.totalRequests,
         reason := some "blocked" }, rec) := by
  simp [track, hb, hu]

theorem track_overflow (cfg : TrackerConfig) (rec : IpRecord) (now : Nat)
    (hb : rec.blocked = false)
    (hlen : cfg.maxRequests < (keptRequests cfg now rec.requests).length + 1) :
    track cfg rec now =
      ({ allowed := false, blocked := true, remaining := 0,
         resetMs := cfg.blockDurationMs, totalRequests := rec.totalRequests + 1,
         reason := some "rate_limit_exceeded" },
       { rec with
          requests := keptRequests cfg now rec.requests ++ [now],
          blocked := true, blockedUntil := now + cfg.blockDurationMs,
          totalRequests := rec.totalRequests + 1,
          totalBlocks := rec.totalBlocks + 1 }) := by
  have hlen' : (keptRequests cfg now rec.requests ++ [now]).length
      > cfg.maxRequests := by simpa using hlen
  simp only [track, hb, Bool.false_eq_true, false_and, if_false, if_neg]
  simp [hlen']
  omega

theorem track_under (cfg : TrackerConfig) (rec : IpRecord) (now : Nat)
    (hb : rec.blocked = false)
    (hlen : (keptRequests cfg now rec.requests).length + 1 ≤ cfg.maxRequests) :
    track cfg rec now =
      ({ allowed := true, blocked := false,
         remaining := cfg.maxRequests
           - ((keptRequests cfg now rec.requests).length + 1),
         resetMs :=
           (if (keptRequests cfg now rec.requests ++ [now]).headD 0 = 0 then
              cfg.windowMs
            else (((keptRequests cfg now rec.requests ++ [now]).headD 0 : Int)
              + (cfg.windowMs : Int) - (now : Int)).toNat),
         totalRequests := rec.totalRequests + 1, reason := none },
       { rec with
          requests := keptRequests cfg now rec.requests ++ [now],
          totalRequests := rec.totalRequests + 1 }) := by
  have hlen' : ¬ ((keptRequests cfg now rec.requests ++ [now]).length
      > cfg.maxRequests) := by simp; omega
  simp [track, hb, hlen']
  omega

theorem track_blocked_expired (cfg : TrackerConfig) (rec : IpRecord) (now : Nat)
    (hb : rec.blocked = true) (hu : rec.blockedUntil ≤ now)
    (hmax : 1 ≤ cfg.maxRequests) :
    track cfg rec now =
      ({ allowed := true, blocked := false, remaining := cfg.maxRequests - 1,
         resetMs := cfg.windowMs,
         totalRequests := rec.totalRequests + 1, reason := none },
       { rec with
          requests := [now], blocked := false, blockedUntil := 0,
          totalRequests := rec.totalRequests + 1 }) := by
  have hu' : ¬ (now < rec.blockedUntil) := by omega
  have hk : keptRequests cfg now ([] : List Nat) = [] := rfl
  have hlen' : ¬ (((keptRequests cfg now ([] : List Nat)) ++ [now]).length
      > cfg.maxRequests) := by simp [hk]; omega
  simp only [track, hb, hu', and_false, if_false, true_and, if_neg hu']
  simp only [if_true, hk, List.nil_append, hlen', if_false]
  have hreset : (if now = 0 then cfg.windowMs
      else ((now : Int) + (cfg.windowMs : Int) - (now : Int)).toNat)
      = cfg.windowMs := by
    by_cases h0 : now = 0 <;> simp [h0]
  simp [hreset]
  omega

/-! ### Map-level lemmas -/

theorem lookupRec_setRec_self (st : TrackerState) (ip : String) (r : IpRecord) :
    lookupRec (setRec st ip r) ip = some r := by
  induction st with
  | nil => simp [setRec, lookupRec]
  | cons kv rest ih =>
    by_cases hk : kv.1 = ip
    · simp [setRec, hk, lookupRec]
    · simp [setRec, hk, lookupRec, ih]

theorem lookupRec_setRec_other (st : TrackerState) (ip k : String)
    (r : IpRecord) (hne : k ≠ ip) :
    lookupRec (setRec st ip r) k = lookupRec st k := by
  induction st with
  | nil => simp [setRec, lookupRec, Ne.symm hne]
  | cons kv rest ih =>
    by_cases hk : kv.1 = ip
    · simp [setRec, hk, lookupRec, Ne.symm hne]
    · simp only [setRec, hk, if_false, lookupRec, ih]

/-! ### C10: unblock frame -/

/-- C10: `unblock(key)` mutates only the `blocked` flag and
`blockedUntil` of an existing record (timestamps and lifetime counters
untouched) and leaves every other key alone; on a key with no record it
is the identity; a subsequent `track` still counts the preserved
timestamps inside the window, and refuses exactly when they overflow the
cap. -/
theorem unblock_mutates_only_block_fields (cfg : TrackerConfig)
    (st : TrackerState) (ip : String) (now : Nat) :
    (lookupRec st ip = none → trackerUnblock st ip = st) ∧
    (∀ r, lookupRec st ip = some r →
      lookupRec (trackerUnblock st ip) ip
        = some { r with blocked := false, blockedUntil := 0 } ∧
      (∀ k, k ≠ ip → lookupRec (trackerUnblock st ip) k = lookupRec st k)) ∧
    (∀ r, lookupRec st ip = some r →
      (lookupRec (trackerTrack cfg (trackerUnblock st ip) ip now).2 ip).map
          IpRecord.requests
        = some (keptRequests cfg now r.requests ++ [now]) ∧
      ((trackerTrack cfg (trackerUnblock st ip) ip now).1.allowed = false ↔
        cfg.maxRequests < (keptRequests cfg now r.requests).length + 1)) := by
  refine ⟨?_, ?_, ?_⟩
  · intro h
    simp [trackerUnblock, h]
  · intro r hr
    constructor
    · simp [trackerUnblock, hr, unblockRec, lookupRec_setRec_self]
    · intro k hk
      simp [trackerUnblock, hr, lookupRec_setRec_other _ _ _ _ hk]
  · intro r hr
    have hlook : lookupRec (trackerUnblock st ip) ip
        = some { r with blocked := false, blockedUntil := 0 } := by
      simp [trackerUnblock, hr, unblockRec, lookupRec_setRec_self]
    by_cases hlen : cfg.maxRequests
        < (keptRequests cfg now r.requests).length + 1
    · have ht := track_overflow cfg
        { r with blocked := false, blockedUntil := 0 } now rfl (by simpa using hlen)
      constructor
      · simp [trackerTrack, hlook, ht, lookupRec_setRec_self]
      · simp [trackerTrack, hlook, ht, hlen]
    · have ht := track_under cfg
        { r with blocked := false, blockedUntil := 0 } now rfl (by simp; omega)
      constructor
      · simp [trackerTrack, hlook, ht, lookupRec_setRec_self]
      · simp [trackerTrack, hlook, ht, hlen]

/-- C10 witness: a blocked record with two in-window timestamps at cap 2
is re-refused right after `unblock`. -/
theorem unblock_mutates_only_block_fields_witness :
    lookupRec [("1.2.3.4",
        { requests := [100, 150], blocked := true, blockedUntil := 99999,
          totalRequests := 3, totalBlocks := 1 })] "1.2.3.4"
      = some { requests := [100, 150], blocked := true, blockedUntil := 99999,
               totalRequests := 3, totalBlocks := 1 } ∧
    (trackerTrack { windowMs := 1000, maxRequests := 2, blockDurationMs := 500 }
        (trackerUnblock [("1.2.3.4",
          { requests := [100, 150], blocked := true, blockedUntil := 99999,
            totalRequests := 3, totalBlocks := 1 })] "1.2.3.4")
        "1.2.3.4" 200).1.allowed = false := by
  refine ⟨by decide, ?_⟩
  exact ((unblock_mutates_only_block_fields
    { windowMs := 1000, maxRequests := 2, blockDurationMs := 500 }
    [("1.2.3.4",
      { requests := [100, 150], blocked := true, blockedUntil := 99999,
        totalRequests := 3, totalBlocks := 1 })] "1.2.3.4" 200).2.2
    { requests := [100, 150], blocked := true, blockedUntil := 99999,
      totalRequests := 3, totalBlocks := 1 } (by decide)).2.mpr (by decide)

/-! ### C7: policy order in `check` -/

/-- C7: a single `check(request)` call evaluates its policies in the
order disabled → skip-path → allow-list → deny-list → tracker, with the
stated result at each short-circuit (allow-list wins over deny-list, and
the tracker is consulted — and the tracker state mutated — only when no
earlier policy fires). -/
theorem check_policy_order (rl : RateLimiter) (req : Req) (now : Nat) :
    (rl.enabled = false →
      check rl req now =
        ({ allowed := true, blocked := false, remaining := none,
           resetMs := some 0, ip := none, reason := some "disabled",
           totalRequests := none }, rl)) ∧
    (rl.enabled = true → shouldSkip rl req = true →
      check rl req now =
        ({ allowed := true, blocked := false, remaining := none,
           resetMs := some 0, ip := none, reason := some "skipped",
           totalRequests := none }, rl)) ∧
    (rl.enabled = true → shouldSkip rl req = false →
      getKey rl req ∈ rl.whitelist →
      check rl req now =
        ({ allowed := true, blocked := false, remaining := none,
           resetMs := some 0, ip := some (getKey rl req),
           reason := some "whitelisted", totalRequests := none }, rl)) ∧
    (rl.enabled = true → shouldSkip rl req = false →
      getKey rl req ∉ rl.whitelist → getKey rl req ∈ rl.blacklist →
      check rl req now =
        ({ allowed := false, blocked := true, remaining := some 0,
           resetMs := none, ip := some (getKey rl req),
           reason := some "blacklisted", totalRequests := none }, rl)) ∧
    (rl.enabled = true → shouldSkip rl req = false →
      getKey rl req ∉ rl.whitelist → getKey rl req ∉ rl.blacklist →
      check rl req now =
        ({ allowed := (trackerTrack rl.cfg rl.tracker (getKey rl req) now).1.allowed,
           blocked := (trackerTrack rl.cfg rl.tracker (getKey rl req) now).1.blocked,
           remaining :=
             some (trackerTrack rl.cfg rl.tracker (getKey rl req) now).1.remaining,
           resetMs :=
             some (trackerTrack rl.cfg rl.tracker (getKey rl req) now).1.resetMs,
           ip := some (getKey rl req),
           reason := (trackerTrack rl.cfg rl.tracker (getKey rl req) now).1.reason,
           totalRequests :=
             some (trackerTrack rl.cfg rl.tracker (getKey rl req) now).1.totalRequests },
         { rl with tracker := (trackerTrack rl.cfg rl.tracker (getKey rl req) now).2 })) := by
  refine ⟨?_, ?_, ?_, ?_, ?_⟩
  · intro hdis
    simp [check, hdis]
  · intro hen hskip
    simp [check, hen, hskip]
  · intro hen hskip hwl
    simp [check, hen, hskip, hwl]
  · intro hen hskip hwl hbl
    simp [check, hen, hskip, hwl, hbl]
  · intro hen hskip hwl hbl
    simp [check, hen, hskip, hwl, hbl]

/-- C7 witness: a whitelisted key short-circuits with
`reason = whitelisted` and unbounded remaining. -/
theorem check_policy_order_witness :
    check rlWithWl
      { headers := [], url := "/x", method := "GET",
        socketRemoteAddress := some "1.2.3.4",
        connectionRemoteAddress := none, reqIp := none,
        socketEncrypted := false, reqId := none } 0 =
      ({ allowed := true, blocked := false, remaining := none,
         resetMs := some 0, ip := some "1.2.3.4",
         reason := some "whitelisted", totalRequests := none }, rlWithWl) := by
  have h := (check_policy_order rlWithWl
    { headers := [], url := "/x", method := "GET",
      socketRemoteAddress := some "1.2.3.4",
      connectionRemoteAddress := none, reqIp := none,
      socketEncrypted := false, reqId := none } 0).2.2.1
    rfl (by decide) (by decide)
  have hkey : getKey rlWithWl
      { headers := [], url := "/x", method := "GET",
        socketRemoteAddress := some "1.2.3.4",
        connectionRemoteAddress := none, reqIp := none,
        socketEncrypted := false, reqId := none } = "1.2.3.4" := by decide
  rw [h, hkey]

/-! ### C4: lifetime counters -/

/-- One operation on a key's record. -/
inductive TrackerOp where
  | trackOp (now : Nat)
  | blockOp (now durationMs : Nat)
  | unblockOp
  deriving Repr, DecidableEq

/-- Apply one operation to a record. -/
def applyRecOp (cfg : TrackerConfig) (rec : IpRecord) : TrackerOp → IpRecord
  | .trackOp now => (track cfg rec now).2
  | .blockOp now d => blockRec rec now d
  | .unblockOp => unblockRec rec

/-- Apply a sequence of operations to a record. -/
def applyRecOps (cfg : TrackerConfig) (rec : IpRecord)
    (ops : List TrackerOp) : IpRecord :=
  ops.foldl (applyRecOp cfg) rec

theorem applyRecOp_totalRequests_mono (cfg : TrackerConfig) (rec : IpRecord)
    (op : TrackerOp) :
    rec.totalRequests ≤ (applyRecOp cfg rec op).totalRequests := by
  cases op with
  | trackOp now =>
    simp only [applyRecOp]
    by_cases hb : rec.blocked
    · by_cases hu : now < rec.blockedUntil
      · rw [track_blocked_active cfg rec now hb hu]
      · by_cases hover : cfg.maxRequests
            < (keptRequests cfg now ([] : List Nat)).length + 1
        · simp only [track, hb, hu, and_false, if_false, if_true]
          split <;> simp
        · simp only [track, hb, hu, and_false, if_false, if_true]
          split <;> simp
    · by_cases hover : cfg.maxRequests
          < (keptRequests cfg now rec.requests).length + 1
      · rw [track_overflow cfg rec now (by simpa using hb) hover]
        simp
      · rw [track_under cfg rec now (by simpa using hb) (by omega)]
        simp
  | blockOp now d => simp [applyRecOp, blockRec]
  | unblockOp => simp [applyRecOp, unblockRec]

/-- C4 counterexample: a second manual `block` on an already-blocked
record increments `total_blocks` although the record does not transition
from unblocked to blocked. -/
theorem totalBlocks_increases_without_transition :
    (blockRec IpRecord.fresh 0 1000).blocked = true ∧
    (blockRec (blockRec IpRecord.fresh 0 1000) 5 1000).blocked = true ∧
    (blockRec (blockRec IpRecord.fresh 0 1000) 5 1000).totalBlocks
      = (blockRec IpRecord.fresh 0 1000).totalBlocks + 1 := by
  decide

/-- C4 amended: across any sequence of `track`/`block`/`unblock`
operations `total_requests` is non-decreasing, and per operation
`total_blocks` grows by exactly 1 on a `track` that transitions the
record from unblocked to blocked, by exactly 1 on every manual `block`
(even when the record is already blocked), and never otherwise. -/
theorem counters_step (cfg : TrackerConfig) (rec : IpRecord) (op : TrackerOp)
    (hmax : 1 ≤ cfg.maxRequests) :
    rec.totalRequests ≤ (applyRecOp cfg rec op).totalRequests ∧
    (∀ ops : List TrackerOp,
      rec.totalRequests ≤ (applyRecOps cfg rec ops).totalRequests) ∧
    (applyRecOp cfg rec op).totalBlocks = rec.totalBlocks +
      (match op with
       | .trackOp now =>
         if rec.blocked = false ∧ (track cfg rec now).2.blocked = true then 1
         else 0
       | .blockOp _ _ => 1
       | .unblockOp => 0) := by
  refine ⟨applyRecOp_totalRequests_mono cfg rec op, ?_, ?_⟩
  · intro ops
    induction ops generalizing rec with
    | nil => simp [applyRecOps]
    | cons o rest ih =>
      calc rec.totalRequests
          ≤ (applyRecOp cfg rec o).totalRequests :=
            applyRecOp_totalRequests_mono cfg rec o
        _ ≤ (applyRecOps cfg (applyRecOp cfg rec o) rest).totalRequests :=
            ih (applyRecOp cfg rec o)
  · cases op with
    | blockOp now d => simp [applyRecOp, blockRec]
    | unblockOp => simp [applyRecOp, unblockRec]
    | trackOp now =>
      simp only [applyRecOp]
      by_cases hb : rec.blocked
      · by_cases hu : now < rec.blockedUntil
        · rw [track_blocked_active cfg rec now hb hu]
          simp [hb]
        · rw [track_blocked_expired cfg rec now hb (by omega) hmax]
          simp [hb]
      · have hb' : rec.blocked = false := by simpa using hb
        by_cases hover : cfg.maxRequests
            < (keptRequests cfg now rec.requests).length + 1
        · rw [track_overflow cfg rec now hb' hover]
          simp [hb']
        · rw [track_under cfg rec now hb' (by omega)]
          simp [hb']

/-- C4 amended, witness: a manual block on a fresh record adds exactly
one to `total_blocks` and keeps `total_requests`. -/
theorem counters_step_witness :
    IpRecord.fresh.totalRequests ≤
      (applyRecOp { windowMs := 1000, maxRequests := 2, blockDurationMs := 500 }
        IpRecord.fresh (.blockOp 0 1000)).totalRequests ∧
    (applyRecOp { windowMs := 1000, maxRequests := 2, blockDurationMs := 500 }
        IpRecord.fresh (.blockOp 0 1000)).totalBlocks
      = IpRecord.fresh.totalBlocks + 1 := by
  have h := counters_step
    { windowMs := 1000, maxRequests := 2, blockDurationMs := 500 }
    IpRecord.fresh (.blockOp 0 1000) (by decide)
  exact ⟨h.1, h.2.2⟩

/-! ### C8: reputation lookup failure -/

/-- C8 amended: for a public, non-whitelisted, uncached IP with an API
key and quota available, a failed lookup returns
`{blocked := false, reason := api_error}`, leaves the TTL cache
unchanged, and of the stats counters changes only `totalChecks` (counted
at entry for every check) — the code maintains no error counter. -/
theorem repCheck_error_fail_open (st : RepState) (ip : String)
    (now nextMidnight : Nat) (e : String)
    (hpriv : isPrivateIp ip = false)
    (hwl : ip ∉ st.whitelist)
    (hmiss : lookupCache st.cache ip = none)
    (hkey : hasApiKey st = true)
    (hquota : (if now ≥ st.apiResetTime then 0 else st.apiCallsToday)
      < st.apiRateLimit) :
    (repCheck st ip now nextMidnight (.error e)).1 =
      { blocked := false, score := 0, reason := "api_error", cached := false,
        errMsg := some e } ∧
    (repCheck st ip now nextMidnight (.error e)).2.cache = st.cache ∧
    (repCheck st ip now nextMidnight (.error e)).2.stats =
      { st.stats with totalChecks := st.stats.totalChecks + 1 } := by
  have hcache : ∀ st1 : RepState, st1.cache = st.cache →
      getFromCache st1 ip now = (none, st.cache) := by
    intro st1 h1
    by_cases hce : st1.cacheEnabled
    · simp [getFromCache, hce, h1, hmiss]
    · simp [getFromCache, hce, h1]
  obtain ⟨k, hk, hkne⟩ : ∃ k, st.apiKey = some k ∧ ¬(k = "") := by
    cases hsk : st.apiKey with
    | none => simp [hasApiKey, hsk] at hkey
    | some k => exact ⟨k, rfl, by simpa [hasApiKey, hsk] using hkey⟩
  by_cases hreset : now ≥ st.apiResetTime
  · have hq : ¬ ((0 : Nat) ≥ st.apiRateLimit) := by
      simp [hreset] at hquota; omega
    refine ⟨?_, ?_, ?_⟩ <;>
      simp [repCheck, hpriv, hwl, hcache, hk, hkne, hasApiKey, checkRateReset,
        hreset, hq]
  · have hreset' : ¬ (now ≥ st.apiResetTime) := hreset
    have hq : ¬ (st.apiCallsToday ≥ st.apiRateLimit) := by
      simp [hreset] at hquota; omega
    refine ⟨?_, ?_, ?_⟩ <;>
      simp [repCheck, hpriv, hwl, hcache, hk, hkne, hasApiKey, checkRateReset,
        hreset', hq]

/-- A reputation engine state right after construction with an API key. -/
def repState0 : RepState :=
  { apiKey := some "k", blockThreshold := 80, warnThreshold := 50,
    cacheEnabled := true, cacheTTL := 3600000, cacheMaxSize := 10000,
    apiRateLimit := 1000, apiCallsToday := 0, apiResetTime := 99999999,
    cache := [], whitelist := ∅, stats :=
      { totalChecks := 0, cacheHits := 0, apiCalls := 0,
        blockedByReputation := 0, reportsSent := 0 } }

/-- C8 counterexample: on a failed lookup for a public IP the verdict is
`api_error` and the cache stays empty, but every stats counter except the
unconditional `totalChecks` is unchanged — in particular no error counter
is incremented, contrary to the claim. -/
theorem repCheck_error_increments_no_counter :
    (repCheck repState0 "9.9.9.9" 1000 2000 (.error "timeout")).1.reason
      = "api_error" ∧
    (repCheck repState0 "9.9.9.9" 1000 2000 (.error "timeout")).2.cache = [] ∧
    (repCheck repState0 "9.9.9.9" 1000 2000 (.error "timeout")).2.stats =
      { totalChecks := 1, cacheHits := 0, apiCalls := 0,
        blockedByReputation := 0, reportsSent := 0 } := by
  decide

/-- C8 amended, witness at the concrete error run. -/
theorem repCheck_error_fail_open_witness :
    (repCheck repState0 "9.9.9.9" 1000 2000 (.error "timeout")).1 =
      { blocked := false, score := 0, reason := "api_error", cached := false,
        errMsg := some "timeout" } :=
  (repCheck_error_fail_open repState0 "9.9.9.9" 1000 2000 "timeout"
    (by decide) (by decide) rfl rfl (by decide)).1

/-! ### C1: the window boundary -/

theorem keptRequests_all (cfg : TrackerConfig) (now : Nat) (l : List Nat)
    (h : ∀ a ∈ l, (now : Int) < (a : Int) + (cfg.windowMs : Int)) :
    keptRequests cfg now l = l := by
  apply List.filter_eq_self.mpr
  intro a ha
  have := h a ha
  simp only [decide_eq_true_eq]
  omega

theorem trackSeq_length (cfg : TrackerConfig) (rec : IpRecord)
    (l : List Nat) : (trackSeq cfg rec l).1.length = l.length := by
  induction l generalizing rec with
  | nil => rfl
  | cons t ts ih => simp [trackSeq, ih]

theorem trackSeq_append (cfg : TrackerConfig) (rec : IpRecord)
    (l₁ l₂ : List Nat) :
    trackSeq cfg rec (l₁ ++ l₂) =
      ((trackSeq cfg rec l₁).1 ++ (trackSeq cfg (trackSeq cfg rec l₁).2 l₂).1,
       (trackSeq cfg (trackSeq cfg rec l₁).2 l₂).2) := by
  induction l₁ generalizing rec with
  | nil => simp [trackSeq]
  | cons t ts ih => simp [trackSeq, ih]

/-- Tracking times that all pairwise fit in one window, starting from an
unblocked record holding `acc`, keeps every decision allowed and simply
appends the times. -/
theorem trackSeq_all_allowed (cfg : TrackerConfig) :
    ∀ (ts acc : List Nat) (bu n b : Nat),
      (∀ a ∈ acc ++ ts, ∀ c ∈ acc ++ ts,
        (c : Int) < (a : Int) + (cfg.windowMs : Int)) →
      acc.length + ts.length ≤ cfg.maxRequests →
      (trackSeq cfg
          { requests := acc, blocked := false, blockedUntil := bu,
            totalRequests := n, totalBlocks := b } ts).2 =
        { requests := acc ++ ts, blocked := false, blockedUntil := bu,
          totalRequests := n + ts.length, totalBlocks := b } ∧
      ∀ r ∈ (trackSeq cfg
          { requests := acc, blocked := false, blockedUntil := bu,
            totalRequests := n, totalBlocks := b } ts).1, r.allowed = true := by
  intro ts
  induction ts with
  | nil =>
    intro acc bu n b hwin hlen
    simp [trackSeq]
  | cons t ts ih =>
    intro acc bu n b hwin hlen
    have hkept : keptRequests cfg t acc = acc := by
      apply keptRequests_all
      intro a ha
      exact hwin a (by simp [ha]) t (by simp)
    have hunder : (keptRequests cfg t acc).length + 1 ≤ cfg.maxRequests := by
      rw [hkept]; simp at hlen; omega
    have hstep := track_under cfg
      { requests := acc, blocked := false, blockedUntil := bu,
        totalRequests := n, totalBlocks := b } t rfl hunder
    have hwin' : ∀ a ∈ (acc ++ [t]) ++ ts, ∀ c ∈ (acc ++ [t]) ++ ts,
        (c : Int) < (a : Int) + (cfg.windowMs : Int) := by
      intro a ha c hc
      refine hwin a ?_ c ?_ <;> simp at ha hc ⊢ <;> tauto
    have hlen' : (acc ++ [t]).length + ts.length ≤ cfg.maxRequests := by
      simp at hlen ⊢; omega
    have ihr := ih (acc ++ [t]) bu (n + 1) b hwin' hlen'
    constructor
    · simp only [trackSeq, hstep, hkept]
      rw [ihr.1]
      simp only [IpRecord.mk.injEq, List.append_assoc, List.singleton_append,
        List.length_cons]
      refine ⟨trivial, trivial, trivial, ?_, trivial⟩
      omega
    · intro r hr
      simp only [trackSeq, hstep, hkept] at hr
      rcases List.mem_cons.mp hr with hr | hr
      · subst hr; rfl
      · exact ihr.2 r hr

/-- C1: from a fresh record, `maxRequests + 1` track calls whose times
all lie inside one window admit exactly the first `maxRequests` calls;
the last call is refused with `reason = rate_limit_exceeded` and
`resetMs = blockDurationMs`, and it leaves the record blocked with
`blockedUntil = now + blockDurationMs` and one recorded block. -/
theorem window_admits_exactly_max_requests (cfg : TrackerConfig)
    (ts : List Nat) (u : Nat)
    (hlen : ts.length = cfg.maxRequests)
    (hwin : ∀ a ∈ ts ++ [u], ∀ c ∈ ts ++ [u],
      (c : Int) < (a : Int) + (cfg.windowMs : Int)) :
    (∀ r ∈ (trackSeq cfg IpRecord.fresh (ts ++ [u])).1.take cfg.maxRequests,
      r.allowed = true) ∧
    (trackSeq cfg IpRecord.fresh (ts ++ [u])).1.getLast? = some
      { allowed := false, blocked := true, remaining := 0,
        resetMs := cfg.blockDurationMs,
        totalRequests := cfg.maxRequests + 1,
        reason := some "rate_limit_exceeded" } ∧
    (trackSeq cfg IpRecord.fresh (ts ++ [u])).2 =
      { requests := ts ++ [u], blocked := true,
        blockedUntil := u + cfg.blockDurationMs,
        totalRequests := cfg.maxRequests + 1, totalBlocks := 1 } := by
  have hwin1 : ∀ a ∈ ts, ∀ c ∈ ts,
      (c : Int) < (a : Int) + (cfg.windowMs : Int) := by
    intro a ha c hc
    exact hwin a (by simp [ha]) c (by simp [hc])
  have hphase1 := trackSeq_all_allowed cfg ts [] 0 0 0
    (by simpa using hwin1) (by simp [hlen])
  have hmid : (trackSeq cfg IpRecord.fresh ts).2 =
      { requests := ts, blocked := false, blockedUntil := 0,
        totalRequests := ts.length, totalBlocks := 0 } := by
    have := hphase1.1
    simpa [IpRecord.fresh] using this
  have hkept : keptRequests cfg u ts = ts := by
    apply keptRequests_all
    intro a ha
    exact hwin a (by simp [ha]) u (by simp)
  have hover : cfg.maxRequests < (keptRequests cfg u ts).length + 1 := by
    rw [hkept, hlen]; omega
  have hfinal := track_overflow cfg
    { requests := ts, blocked := false, blockedUntil := 0,
      totalRequests := ts.length, totalBlocks := 0 } u rfl hover
  have happ := trackSeq_append cfg IpRecord.fresh ts [u]
  refine ⟨?_, ?_, ?_⟩
  · intro r hr
    rw [happ] at hr
    have hlen1 : (trackSeq cfg IpRecord.fresh ts).1.length = cfg.maxRequests := by
      rw [trackSeq_length, hlen]
    rw [List.take_left' hlen1] at hr
    exact hphase1.2 r (by simpa [IpRecord.fresh] using hr)
  · rw [happ]
    simp only [trackSeq, hmid, hfinal]
    rw [List.getLast?_append]
    simp [hkept, hlen]
  · rw [happ]
    simp only [trackSeq, hmid, hfinal]
    simp [hkept, hlen]

/-- C1 witness: window 1000 ms, cap 2, block 500 ms; calls at 100, 150
and 200 ms. -/
theorem window_admits_exactly_max_requests_witness :
    (∀ r ∈ (trackSeq { windowMs := 1000, maxRequests := 2, blockDurationMs := 500 }
        IpRecord.fresh ([100, 150] ++ [200])).1.take 2, r.allowed = true) ∧
    (trackSeq { windowMs := 1000, maxRequests := 2, blockDurationMs := 500 }
        IpRecord.fresh ([100, 150] ++ [200])).1.getLast? = some
      { allowed := false, blocked := true, remaining := 0, resetMs := 500,
        totalRequests := 3, reason := some "rate_limit_exceeded" } := by
  have h := window_admits_exactly_max_requests
    { windowMs := 1000, maxRequests := 2, blockDurationMs := 500 }
    [100, 150] 200 (by decide) (by decide)
  exact ⟨h.1, h.2.1⟩

end Guardian
